import Mathlib

/-!
Shallow embedding of the clinic-management backend (`src/backend/backend.py`)
for the appointment-scheduling and record-visibility core.

Modelling conventions:
* every SQL table is a Lean `List` of row structures inside a `DB` record;
* `fetchone` on a keyed lookup is `List.find?` (first matching row);
* a MySQL `DATETIME` is an `Int` counting minutes since an epoch, so the
  `DATE_SUB .. INTERVAL 30 MINUTE` / `DATE_ADD .. INTERVAL 30 MINUTE` window
  of the booking conflict query is the inclusive interval `[t - 30, t + 30]`;
* `DATE(x)` / `CURDATE()` extract the calendar day, modelled as floor
  division of the minute timestamp by 1440 (minutes per day);
* fallible store statements inside a transaction are modelled by explicit
  success flags: on any failure the handler runs `conn.rollback()`, so the
  returned database is the original one;
* `AUTO_INCREMENT` primary keys are modelled by a `nextApptId` counter.
-/

/-- Appointment status column values used by the backend. -/
inductive Status where
  | Pending
  | Confirmed
  | Completed
  | Cancelled
deriving DecidableEq, Repr

/-- Row of the `users` table. `vchr_status` is the soft-delete flag:
`"A"` for active, set to `"D"` by `manage_delete_users`. -/
structure UserRow where
  user_id : Nat
  full_name : String
  email : String
  password : String
  role : String
  vchr_status : String
deriving DecidableEq, Repr

/-- Row of the `owners` table (pet-owner profile, 1:1 with a user). -/
structure Owner where
  owner_id : Nat
  user_id : Nat
  phone : String
  address : String
deriving DecidableEq, Repr

/-- Row of the `veterinarians` table (vet profile, 1:1 with a user). -/
structure Vet where
  vet_id : Nat
  user_id : Nat
  specialization : String
  phone : String
  clinic_address : String
deriving DecidableEq, Repr

/-- Row of the `pets` table. `owner_id` is an `Option` because
`manage_edit_pet` writes `NULL` there when the calling owner has no
profile row. -/
structure Pet where
  pet_id : Nat
  owner_id : Option Nat
  name : String
  breed : String
  age : Nat
  gender : String
  medical_history : String
  image : String
deriving DecidableEq, Repr

/-- Row of the `appointments` table. `appointment_date` is the combined
date+time timestamp in minutes. -/
structure Appointment where
  appointment_id : Nat
  pet_id : Nat
  owner_id : Nat
  vet_id : Nat
  appointment_date : Int
  status : Status
deriving DecidableEq, Repr

/-- Row of the `vaccinations` table. -/
structure Vaccination where
  pet_id : Nat
  vet_id : Nat
  vaccine_name : String
  date_given : Int
  next_due_date : Option Int
  notes : Option String
deriving DecidableEq, Repr

/-- Row of the `medications` table. -/
structure Medication where
  pet_id : Nat
  vet_id : Nat
  medicine_name : String
  dosage : String
  start_date : Int
  end_date : Option Int
  notes : Option String
deriving DecidableEq, Repr

/-- The relational store: one list per table, plus the `appointments`
`AUTO_INCREMENT` counter. -/
structure DB where
  users : List UserRow
  owners : List Owner
  veterinarians : List Vet
  pets : List Pet
  appointments : List Appointment
  vaccinations : List Vaccination
  medications : List Medication
  nextApptId : Nat
deriving DecidableEq, Repr

/-- Session role, the value of `session["role"]` dispatched on by the
route handlers. -/
inductive Role where
  | Admin
  | Veterinarian
  | PetOwner
deriving DecidableEq, Repr

/-- `SELECT owner_id FROM owners WHERE user_id = %s` with `fetchone`. -/
def findOwner (db : DB) (userId : Nat) : Option Owner :=
  db.owners.find? (fun o => o.user_id == userId)

/-- `SELECT vet_id FROM veterinarians WHERE user_id = %s` with `fetchone`. -/
def findVet (db : DB) (userId : Nat) : Option Vet :=
  db.veterinarians.find? (fun v => v.user_id == userId)

/-- `DATE(x)`: the calendar day of a minute timestamp (1440 minutes per
day, floor division so it is well defined on all of `Int`). -/
def dateOf (t : Int) : Int := Int.fdiv t 1440

/-- Modelled from the spec: the `CREATE TABLE` schema of `appointments` is
not part of `src/`; the booking `INSERT` in `book_appointment` omits the
`status` column and relies on its column default.  The spec states the
appointment is inserted with initial status `Pending`. -/
def defaultAppointmentStatus : Status := .Pending

/-- The conflict query of `book_appointment`:
`SELECT * FROM appointments WHERE vet_id = %s AND appointment_date BETWEEN
DATE_SUB(%s, INTERVAL 30 MINUTE) AND DATE_ADD(%s, INTERVAL 30 MINUTE) AND
status != 'Cancelled'`, followed by `fetchone` (so only emptiness of the
result matters). -/
def hasConflict (db : DB) (vetId : Nat) (ts : Int) : Bool :=
  db.appointments.any fun a =>
    a.vet_id == vetId
      && decide (ts - 30 ≤ a.appointment_date)
      && decide (a.appointment_date ≤ ts + 30)
      && !(a.status == Status.Cancelled)

/-- The row built by the booking `INSERT INTO appointments (pet_id,
owner_id, vet_id, appointment_date)`, with the id from `AUTO_INCREMENT`
and the status from the column default. -/
def mkBookedAppointment (db : DB) (petId ownerId vetId : Nat) (ts : Int) :
    Appointment :=
  { appointment_id := db.nextApptId
    pet_id := petId
    owner_id := ownerId
    vet_id := vetId
    appointment_date := ts
    status := defaultAppointmentStatus }

/-- Outcome of the booking POST handler. `OwnerError` models the Python
`TypeError` raised by `owner_data["owner_id"]` when the caller has no
`owners` row: it is not a `mysql.connector.Error`, so the handler's
`except` clause does not catch it. -/
inductive BookResult where
  | Conflict
  | Booked
  | OwnerError
deriving DecidableEq, Repr

/-- The POST branch of `book_appointment` (backend.py lines 1147-1196):
run the conflict query; on a hit, flash the error and leave the store
untouched; otherwise insert the new appointment row and commit. -/
def book_appointment (db : DB) (sessionUserId petId vetId : Nat)
    (ts : Int) : BookResult × DB :=
  if hasConflict db vetId ts then
    (.Conflict, db)
  else
    match findOwner db sessionUserId with
    | none => (.OwnerError, db)
    | some o =>
        (.Booked,
          { db with
              appointments :=
                db.appointments ++ [mkBookedAppointment db petId o.owner_id vetId ts]
              nextApptId := db.nextApptId + 1 })

/-- Example store for the C1 witness: one owner with profile id 7 for
user 2, one existing non-Cancelled appointment for vet 5 at minute 1000. -/
def exDbC1 : DB :=
  { users := [], owners := [⟨7, 2, "", ""⟩], veterinarians := []
    pets := [], appointments := [⟨1, 3, 7, 5, 1000, .Pending⟩]
    vaccinations := [], medications := [], nextApptId := 2 }

/-- Outcome of the status-changing AJAX handlers
(`update_appointment_status` and `cancel_appointment`).  `typeError`
models the Python `TypeError` raised by subscripting a `None` profile
row: the handlers' `except mysql.connector.Error` clause does not catch
it, so it escapes as an unhandled server error. -/
inductive OpResult where
  | success
  | notFound
  | invalidState
  | typeError
deriving DecidableEq, Repr

/-- `SELECT * FROM appointments WHERE appointment_id = %s AND vet_id = %s`
with `fetchone`. -/
def findApptForVet (db : DB) (aid vid : Nat) : Option Appointment :=
  db.appointments.find? (fun a => a.appointment_id == aid && a.vet_id == vid)

/-- `SELECT * FROM appointments WHERE appointment_id = %s AND owner_id = %s`
with `fetchone`. -/
def findApptForOwner (db : DB) (aid oid : Nat) : Option Appointment :=
  db.appointments.find? (fun a => a.appointment_id == aid && a.owner_id == oid)

/-- `UPDATE appointments SET status = %s WHERE appointment_id = %s`. -/
def setStatusById (db : DB) (aid : Nat) (st : Status) : DB :=
  { db with
      appointments := db.appointments.map fun a =>
        if a.appointment_id == aid then { a with status := st } else a }

/-- `update_appointment_status` (backend.py lines 1569-1594): resolve the
caller's vet profile, look the appointment up by id and the caller's
`vet_id`, answer 404 if absent, and otherwise write the requested status
with no check of the current status. -/
def update_appointment_status (db : DB) (sessionUserId aid : Nat)
    (st : Status) : OpResult × DB :=
  match findVet db sessionUserId with
  | none => (.typeError, db)
  | some v =>
      match findApptForVet db aid v.vet_id with
      | none => (.notFound, db)
      | some _ => (.success, setStatusById db aid st)

/-- `cancel_appointment` (backend.py lines 1616-1644): resolve the
caller's owner profile, look the appointment up by id and the caller's
`owner_id`, answer 404 if absent, refuse with a 400 unless the current
status is exactly `Pending`, and otherwise set the status to `Cancelled`. -/
def cancel_appointment (db : DB) (sessionUserId aid : Nat) :
    OpResult × DB :=
  match findOwner db sessionUserId with
  | none => (.typeError, db)
  | some o =>
      match findApptForOwner db aid o.owner_id with
      | none => (.notFound, db)
      | some appt =>
          if appt.status == Status.Pending then
            (.success, setStatusById db aid Status.Cancelled)
          else
            (.invalidState, db)

/-- The `WHERE` clause of the auto-completion `UPDATE` run by
`add_vaccination` and `add_medication`: same pet, same vet, appointment
dated today, status not `Cancelled`. -/
def sameDayMatch (petId vetId : Nat) (today : Int) (a : Appointment) :
    Bool :=
  a.pet_id == petId && a.vet_id == vetId
    && dateOf a.appointment_date == today
    && !(a.status == Status.Cancelled)

/-- `UPDATE appointments SET status = 'Completed' WHERE pet_id = %s AND
vet_id = %s AND DATE(appointment_date) = CURDATE() AND status !=
'Cancelled'`. -/
def completeToday (db : DB) (petId vetId : Nat) (today : Int) : DB :=
  { db with
      appointments := db.appointments.map fun a =>
        if sameDayMatch petId vetId today a then
          { a with status := Status.Completed }
        else a }

/-- Outcome of the medical-record POST handlers.  `storeError` is a
`mysql.connector.Error` raised by a statement of the transaction, after
which the handler rolls back; `typeError` is the uncaught Python error
from subscripting a missing vet profile. -/
inductive MedResult where
  | success
  | storeError
  | typeError
deriving DecidableEq, Repr

/-- `add_vaccination` (backend.py lines 1306-1352): resolve the caller's
vet profile, insert the vaccination row, run the same-day completion
update, then commit; the two writes sit in one transaction, so a store
failure at either statement rolls the whole unit back.  `insertOk` and
`updateOk` say whether the respective statement succeeds at the store. -/
def add_vaccination (db : DB) (sessionUserId petId : Nat)
    (vaccineName : String) (dateGiven : Int) (nextDue : Option Int)
    (notes : Option String) (today : Int) (insertOk updateOk : Bool) :
    MedResult × DB :=
  match findVet db sessionUserId with
  | none => (.typeError, db)
  | some v =>
      if insertOk then
        let db1 :=
          { db with
              vaccinations := db.vaccinations ++
                [⟨petId, v.vet_id, vaccineName, dateGiven, nextDue, notes⟩] }
        if updateOk then
          (.success, completeToday db1 petId v.vet_id today)
        else
          (.storeError, db)
      else
        (.storeError, db)

/-- `add_medication` (backend.py lines 1357-1404): same shape as
`add_vaccination` with a medication row. -/
def add_medication (db : DB) (sessionUserId petId : Nat)
    (medicineName dosage : String) (startDate : Int) (endDate : Option Int)
    (notes : Option String) (today : Int) (insertOk updateOk : Bool) :
    MedResult × DB :=
  match findVet db sessionUserId with
  | none => (.typeError, db)
  | some v =>
      if insertOk then
        let db1 :=
          { db with
              medications := db.medications ++
                [⟨petId, v.vet_id, medicineName, dosage, startDate, endDate, notes⟩] }
        if updateOk then
          (.success, completeToday db1 petId v.vet_id today)
        else
          (.storeError, db)
      else
        (.storeError, db)

/-- The Admin branch of `view_appointments`: appointments joined (inner)
with pets, owners, the owners' users, veterinarians and the vets' users.
Only the `a.*` columns of each joined row are modelled; the display-name
columns are projections of the joined tables. -/
def adminApptRows (db : DB) : List Appointment :=
  db.appointments.flatMap fun a =>
    db.pets.flatMap fun p =>
      if p.pet_id == a.pet_id then
        db.owners.flatMap fun o =>
          if o.owner_id == a.owner_id then
            db.users.flatMap fun u =>
              if u.user_id == o.user_id then
                db.veterinarians.flatMap fun v =>
                  if v.vet_id == a.vet_id then
                    db.users.flatMap fun vu =>
                      if vu.user_id == v.user_id then [a] else []
                  else []
              else []
          else []
      else []

/-- The Veterinarian branch of `view_appointments`: appointments with
`a.vet_id = %s`, joined with pets, owners and the owners' users. -/
def vetApptRows (db : DB) (vid : Nat) : List Appointment :=
  db.appointments.flatMap fun a =>
    if a.vet_id == vid then
      db.pets.flatMap fun p =>
        if p.pet_id == a.pet_id then
          db.owners.flatMap fun o =>
            if o.owner_id == a.owner_id then
              db.users.flatMap fun u =>
                if u.user_id == o.user_id then [a] else []
            else []
        else []
    else []

/-- The Pet Owner branch of `view_appointments`: appointments with
`a.owner_id = %s`, joined with pets, veterinarians and the vets' users. -/
def ownerApptRows (db : DB) (oid : Nat) : List Appointment :=
  db.appointments.flatMap fun a =>
    if a.owner_id == oid then
      db.pets.flatMap fun p =>
        if p.pet_id == a.pet_id then
          db.veterinarians.flatMap fun v =>
            if v.vet_id == a.vet_id then
              db.users.flatMap fun u =>
                if u.user_id == v.user_id then [a] else []
            else []
        else []
    else []

/-- `view_appointments` (backend.py lines 1211-1277): role-dispatched
listing.  A Veterinarian or Pet Owner whose profile row is missing gets
the literal empty list (`appointments = []`), not an error. -/
def view_appointments (db : DB) (role : Role) (sessionUserId : Nat) :
    List Appointment :=
  match role with
  | .Admin => adminApptRows db
  | .Veterinarian =>
      match findVet db sessionUserId with
      | some v => vetApptRows db v.vet_id
      | none => []
  | .PetOwner =>
      match findOwner db sessionUserId with
      | some o => ownerApptRows db o.owner_id
      | none => []

/-- The admin user listing `manage_users` (backend.py lines 440-489):
`SELECT ... FROM users ... WHERE usr.vchr_status = 'A'`.  The `LEFT
JOIN`s to `owners` and `veterinarians` only attach profile columns and
never remove a user row, so the listed user rows are exactly the active
ones. -/
def manage_users (db : DB) : List UserRow :=
  db.users.filter (fun u => u.vchr_status == "A")

/-- `manage_delete_users` (backend.py lines 651-685): soft delete,
`UPDATE users SET vchr_status = 'D' WHERE user_id = %s`; the row is never
removed. -/
def manage_delete_users (db : DB) (targetId : Nat) : DB :=
  { db with
      users := db.users.map fun u =>
        if u.user_id == targetId then { u with vchr_status := "D" } else u }

/-- `SELECT * FROM users WHERE email = %s` with `fetchone`, as issued by
`login`; note there is no `vchr_status` condition. -/
def findByEmail (db : DB) (email : String) : Option UserRow :=
  db.users.find? (fun u => u.email == email)

/-- The POST branch of `login` (backend.py lines 219-262): look the user
up by email alone and test the password with `check_password_hash`,
modelled as the abstract credential checker `check`. -/
def login (check : String → String → Bool) (db : DB)
    (email password : String) : Option UserRow :=
  match findByEmail db email with
  | none => none
  | some u => if check u.password password then some u else none

/-- The Pet Owner branch of `manage_edit_pet` (backend.py lines 828-919):
the caller's own `owner_id` (or `NULL` when the profile row is missing)
is written into the edited row, and the `UPDATE pets SET ... WHERE pet_id
= %s` is keyed by `pet_id` alone — no check that the pet belonged to the
caller.  `imagePath` is the optional newly uploaded photo reference. -/
def manage_edit_pet_asOwner (db : DB) (sessionUserId petId : Nat)
    (name breed : String) (age : Nat) (gender medicalHistory : String)
    (imagePath : Option String) : DB :=
  let ownerId := (findOwner db sessionUserId).map (fun o => o.owner_id)
  { db with
      pets := db.pets.map fun p =>
        if p.pet_id == petId then
          { p with
              owner_id := ownerId
              name := name
              breed := breed
              age := age
              gender := gender
              medical_history := medicalHistory
              image := imagePath.getD p.image }
        else p }

/-- Example store for the C2 witness: vet profile 5 for user 1, one
appointment matching the same-day completion condition and one for a
different pet. -/
def exDbC2 : DB :=
  { users := [], owners := [], veterinarians := [⟨5, 1, "", "", ""⟩]
    pets := [], appointments :=
      [⟨1, 3, 7, 5, 100, .Pending⟩, ⟨2, 4, 7, 5, 100, .Confirmed⟩]
    vaccinations := [], medications := [], nextApptId := 3 }

/-- Example store for C3: vet profile 5 for user 1, owner profile 3 for
user 2, and a `Completed` appointment assigned to both. -/
def exDbC3 : DB :=
  { users := [⟨1, "Vet A", "vet@x", "h", "Veterinarian", "A"⟩]
    owners := [⟨3, 2, "", ""⟩]
    veterinarians := [⟨5, 1, "", "", ""⟩]
    pets := [], appointments := [⟨9, 4, 3, 5, 0, .Completed⟩]
    vaccinations := [], medications := [], nextApptId := 10 }

/-- Example store for the C4 witness: vet profile 5 for user 1 and one
fully joinable appointment for that vet. -/
def exDbC4 : DB :=
  { users := [⟨2, "Owner B", "o@x", "h", "Pet Owner", "A"⟩]
    owners := [⟨7, 2, "", ""⟩]
    veterinarians := [⟨5, 1, "", "", ""⟩]
    pets := [⟨3, some 7, "Rex", "Lab", 4, "M", "", ""⟩]
    appointments := [⟨9, 3, 7, 5, 100, .Pending⟩]
    vaccinations := [], medications := [], nextApptId := 10 }

/-- Example store for the C5 witness: owner profile 7 for user 2, one
Pending and one Confirmed appointment belonging to that owner. -/
def exDbC5 : DB :=
  { users := [], owners := [⟨7, 2, "", ""⟩], veterinarians := []
    pets := [], appointments :=
      [⟨9, 3, 7, 5, 100, .Pending⟩, ⟨10, 3, 7, 5, 300, .Confirmed⟩]
    vaccinations := [], medications := [], nextApptId := 11 }

/-- Example store for the C6 witness: vet profile 5 for user 1 and owner
profile 7 for user 2, with the only appointment assigned to a different
vet (6) and a different owner (8). -/
def exDbC6 : DB :=
  { users := [], owners := [⟨7, 2, "", ""⟩]
    veterinarians := [⟨5, 1, "", "", ""⟩]
    pets := [], appointments := [⟨9, 3, 8, 6, 100, .Pending⟩]
    vaccinations := [], medications := [], nextApptId := 10 }

/-- Example store for the C7 witness: vet profile 5 for user 1 and one
same-day appointment. -/
def exDbC7 : DB :=
  { users := [], owners := [], veterinarians := [⟨5, 1, "", "", ""⟩]
    pets := [], appointments := [⟨9, 3, 7, 5, 100, .Pending⟩]
    vaccinations := [], medications := [], nextApptId := 10 }

/-- Example store for C8: one active pet-owner user. -/
def exDbC8 : DB :=
  { users := [⟨1, "Alice", "a@x", "pw", "Pet Owner", "A"⟩]
    owners := [], veterinarians := [], pets := [], appointments := []
    vaccinations := [], medications := [], nextApptId := 1 }

/-- A concrete credential checker instantiating the abstract
`check_password_hash` collaborator in closed statements. -/
def plainCheck : String → String → Bool := fun stored given => stored == given

/-- Example store for the C9 witness: owner profile 7 for user 2 and a
pet currently belonging to a different owner (99). -/
def exDbC9 : DB :=
  { users := [], owners := [⟨7, 2, "", ""⟩], veterinarians := []
    pets := [⟨3, some 99, "Rex", "Lab", 4, "M", "", "old.png"⟩]
    appointments := [], vaccinations := [], medications := []
    nextApptId := 1 }

/-- Example store for the C10 witness: an appointment exists but neither
caller has a profile row. -/
def exDbC10 : DB :=
  { users := [], owners := [], veterinarians := [], pets := []
    appointments := [⟨1, 1, 1, 1, 0, .Pending⟩]
    vaccinations := [], medications := [], nextApptId := 2 }

/-- Propositional reading of the booking conflict query. -/
theorem hasConflict_iff (db : DB) (vetId : Nat) (ts : Int) :
    hasConflict db vetId ts = true ↔
      ∃ a ∈ db.appointments, a.vet_id = vetId ∧
        ts - 30 ≤ a.appointment_date ∧ a.appointment_date ≤ ts + 30 ∧
        a.status ≠ Status.Cancelled := by
  simp [hasConflict, List.any_eq_true, Bool.and_eq_true, beq_iff_eq,
    decide_eq_true_iff, and_assoc]

/-- C1: booking for vet V at timestamp T′ returns `Conflict` iff some
existing appointment for V is non-Cancelled and within 30 minutes
(inclusive) of T′; otherwise the booking succeeds and inserts exactly one
new appointment row whose initial status is `Pending`. -/
theorem C1_booking_conflict_iff (db : DB) (uid petId vetId : Nat)
    (ts : Int) (o : Owner) (ho : findOwner db uid = some o) :
    ((book_appointment db uid petId vetId ts).1 = .Conflict ↔
      ∃ a ∈ db.appointments, a.vet_id = vetId ∧
        ts - 30 ≤ a.appointment_date ∧ a.appointment_date ≤ ts + 30 ∧
        a.status ≠ Status.Cancelled) ∧
    ((book_appointment db uid petId vetId ts).1 = .Conflict →
      (book_appointment db uid petId vetId ts).2 = db) ∧
    ((book_appointment db uid petId vetId ts).1 ≠ .Conflict →
      (book_appointment db uid petId vetId ts).1 = .Booked ∧
      (book_appointment db uid petId vetId ts).2.appointments =
        db.appointments ++ [mkBookedAppointment db petId o.owner_id vetId ts] ∧
      (mkBookedAppointment db petId o.owner_id vetId ts).status = .Pending) := by
  by_cases h : hasConflict db vetId ts = true
  · refine ⟨?_, ?_, ?_⟩
    · rw [← hasConflict_iff]
      simp [book_appointment, h]
    · intro _
      simp [book_appointment, h]
    · intro hne
      exact absurd (by simp [book_appointment, h]) hne
  · refine ⟨?_, ?_, ?_⟩
    · rw [← hasConflict_iff]
      simp [book_appointment, h, ho]
    · intro hc
      exact absurd hc (by simp [book_appointment, h, ho])
    · intro _
      refine ⟨by simp [book_appointment, h, ho], by simp [book_appointment, h, ho], rfl⟩

/-- Concrete instance of `C1_booking_conflict_iff`: booking at minute
1030 (exactly 30 minutes after the existing appointment) conflicts. -/
theorem C1_booking_conflict_iff_witness :
    (book_appointment exDbC1 2 3 5 1030).1 = .Conflict :=
  ((C1_booking_conflict_iff exDbC1 2 3 5 1030 ⟨7, 2, "", ""⟩ rfl).1).mpr
    ⟨⟨1, 3, 7, 5, 1000, .Pending⟩, by decide⟩

/-- Pointwise description of `setStatusById`: the targeted row gets the
new status and every other row is kept. -/
theorem setStatusById_mem (db : DB) (aid : Nat) (st : Status) :
    ∀ x ∈ db.appointments,
      (x.appointment_id = aid →
        { x with status := st } ∈ (setStatusById db aid st).appointments) ∧
      (x.appointment_id ≠ aid →
        x ∈ (setStatusById db aid st).appointments) := by
  intro x hx
  constructor
  · intro h
    simp only [setStatusById, List.mem_map]
    exact ⟨x, hx, by simp [h]⟩
  · intro h
    simp only [setStatusById, List.mem_map]
    exact ⟨x, hx, by simp [h]⟩

/-- C10: a Veterinarian without a `veterinarians` row invoking the status
update, or a Pet Owner without an `owners` row invoking cancellation,
hits the `None`-subscript `TypeError` (uncaught, since the handler only
catches `mysql.connector.Error`) and nothing is written; the outcome is
an unhandled error, not an empty result and not `NotFound`. -/
theorem C10_missing_profile_unhandled (db : DB) (uidV uidO aid : Nat)
    (st : Status) :
    (findVet db uidV = none →
      update_appointment_status db uidV aid st = (.typeError, db)) ∧
    (findOwner db uidO = none →
      cancel_appointment db uidO aid = (.typeError, db)) := by
  constructor
  · intro h
    simp [update_appointment_status, h]
  · intro h
    simp [cancel_appointment, h]

/-- Concrete instance of `C10_missing_profile_unhandled` on `exDbC10`,
where no profile rows exist at all. -/
theorem C10_missing_profile_unhandled_witness :
    update_appointment_status exDbC10 1 1 .Confirmed = (.typeError, exDbC10) ∧
    cancel_appointment exDbC10 1 1 = (.typeError, exDbC10) := by
  have h := C10_missing_profile_unhandled exDbC10 1 1 1 .Confirmed
  exact ⟨h.1 rfl, h.2 rfl⟩

/-- C6 (as stated): a status change on an appointment not assigned to the
caller — no row matches the id together with the caller's `vet_id`
(update) or `owner_id` (cancel) — answers `NotFound`, exactly as when no
such appointment exists at all, and the store is unchanged. -/
theorem C6_notfound_masks_foreign (db : DB) (uidV uidO aid : Nat)
    (st : Status) :
    (∀ v, findVet db uidV = some v →
      (¬ ∃ a ∈ db.appointments, a.appointment_id = aid ∧ a.vet_id = v.vet_id) →
      update_appointment_status db uidV aid st = (.notFound, db)) ∧
    (∀ o, findOwner db uidO = some o →
      (¬ ∃ a ∈ db.appointments, a.appointment_id = aid ∧ a.owner_id = o.owner_id) →
      cancel_appointment db uidO aid = (.notFound, db)) := by
  constructor
  · intro v hv hno
    have hfind : findApptForVet db aid v.vet_id = none := by
      rw [findApptForVet, List.find?_eq_none]
      intro a ha hpa
      exact hno ⟨a, ha, by simpa [Bool.and_eq_true, beq_iff_eq] using hpa⟩
    simp [update_appointment_status, hv, hfind]
  · intro o ho hno
    have hfind : findApptForOwner db aid o.owner_id = none := by
      rw [findApptForOwner, List.find?_eq_none]
      intro a ha hpa
      exact hno ⟨a, ha, by simpa [Bool.and_eq_true, beq_iff_eq] using hpa⟩
    simp [cancel_appointment, ho, hfind]

/-- Concrete instance of `C6_notfound_masks_foreign` on `exDbC6`: the
appointment belongs to vet 6 / owner 8 while the callers own profiles 5
and 7, so both operations answer `NotFound` without modifying the store. -/
theorem C6_notfound_masks_foreign_witness :
    update_appointment_status exDbC6 1 9 .Confirmed = (.notFound, exDbC6) ∧
    cancel_appointment exDbC6 2 9 = (.notFound, exDbC6) := by
  have h := C6_notfound_masks_foreign exDbC6 1 2 9 .Confirmed
  refine ⟨h.1 ⟨5, 1, "", "", ""⟩ rfl ?_, h.2 ⟨7, 2, "", ""⟩ rfl ?_⟩
  · rintro ⟨a, ha, h1, h2⟩
    simp [exDbC6] at ha
    subst ha
    simp at h2
  · rintro ⟨a, ha, h1, h2⟩
    simp [exDbC6] at ha
    subst ha
    simp at h2

/-- C5: owner cancellation of an appointment matched to the caller's
owner profile succeeds exactly when its status is `Pending` (the targeted
row's status becomes `Cancelled`, every other row is kept); any other
status answers `InvalidState` with the store unchanged. -/
theorem C5_cancel_requires_pending (db : DB) (uid aid : Nat) (o : Owner)
    (a : Appointment) (ho : findOwner db uid = some o)
    (ha : findApptForOwner db aid o.owner_id = some a) :
    (a.status = .Pending →
      (cancel_appointment db uid aid).1 = .success ∧
      (∀ x ∈ db.appointments, x.appointment_id = aid →
        { x with status := Status.Cancelled } ∈
          (cancel_appointment db uid aid).2.appointments) ∧
      (∀ x ∈ db.appointments, x.appointment_id ≠ aid →
        x ∈ (cancel_appointment db uid aid).2.appointments)) ∧
    (a.status ≠ .Pending →
      cancel_appointment db uid aid = (.invalidState, db)) := by
  constructor
  · intro hst
    have hcond : (a.status == Status.Pending) = true := by
      simp [hst]
    have hcancel : cancel_appointment db uid aid =
        (.success, setStatusById db aid Status.Cancelled) := by
      simp [cancel_appointment, ho, ha, hcond]
    refine ⟨by simp [hcancel], ?_, ?_⟩
    · intro x hx hid
      rw [hcancel]
      exact (setStatusById_mem db aid Status.Cancelled x hx).1 hid
    · intro x hx hid
      rw [hcancel]
      exact (setStatusById_mem db aid Status.Cancelled x hx).2 hid
  · intro hst
    have hcond : (a.status == Status.Pending) = false := by
      simpa using hst
    simp [cancel_appointment, ho, ha, hcond]

/-- Concrete instance of `C5_cancel_requires_pending` on `exDbC5`: the
owner cancels their Pending appointment 9 successfully and is refused
with `InvalidState` on their Confirmed appointment 10. -/
theorem C5_cancel_requires_pending_witness :
    (cancel_appointment exDbC5 2 9).1 = .success ∧
    cancel_appointment exDbC5 2 10 = (.invalidState, exDbC5) := by
  have h9 := C5_cancel_requires_pending exDbC5 2 9 ⟨7, 2, "", ""⟩
    ⟨9, 3, 7, 5, 100, .Pending⟩ rfl rfl
  have h10 := C5_cancel_requires_pending exDbC5 2 10 ⟨7, 2, "", ""⟩
    ⟨10, 3, 7, 5, 300, .Confirmed⟩ rfl rfl
  exact ⟨(h9.1 rfl).1, h10.2 (by decide)⟩

/-- C3 counterexample: in `exDbC3` appointment 9 is `Completed` and
assigned to vet profile 5 (user 1); that vet's status update to
`Cancelled` succeeds and overwrites the stored status, where the claim
requires every such attempt to fail with `InvalidState` and `Completed`
to be terminal. -/
theorem C3_terminal_counterexample :
    (update_appointment_status exDbC3 1 9 .Cancelled).1 = .success ∧
    (update_appointment_status exDbC3 1 9 .Cancelled).2.appointments.map
      Appointment.status = [.Cancelled] := by
  constructor <;> rfl

/-- C3 amended: the owner cancellation path does enforce the `Pending`
precondition (any other current status answers `InvalidState` and leaves
the store unchanged), but the veterinarian status-update path performs no
state-machine check at all: for an appointment matched to the caller's
vet profile it writes any requested status whatever the current one, so
`Completed` and `Cancelled` are not terminal along that path. -/
theorem C3_no_state_check_on_vet_update (db : DB) (uidV uidO aid : Nat)
    (st : Status) :
    (∀ v, findVet db uidV = some v → (findApptForVet db aid v.vet_id).isSome →
      (update_appointment_status db uidV aid st).1 = .success ∧
      (update_appointment_status db uidV aid st).2 = setStatusById db aid st) ∧
    (∀ o a, findOwner db uidO = some o →
      findApptForOwner db aid o.owner_id = some a → a.status ≠ .Pending →
      cancel_appointment db uidO aid = (.invalidState, db)) := by
  constructor
  · intro v hv hsome
    rcases Option.isSome_iff_exists.mp hsome with ⟨a, ha⟩
    constructor <;> simp [update_appointment_status, hv, ha]
  · intro o a ho ha hst
    have hcond : (a.status == Status.Pending) = false := by
      simpa using hst
    simp [cancel_appointment, ho, ha, hcond]

/-- Concrete instance of `C3_no_state_check_on_vet_update` on `exDbC3`:
the vet moves the `Completed` appointment to `Confirmed` with success,
and the owner's cancellation of the same non-Pending appointment is
refused with `InvalidState`. -/
theorem C3_no_state_check_on_vet_update_witness :
    (update_appointment_status exDbC3 1 9 .Confirmed).1 = .success ∧
    cancel_appointment exDbC3 2 9 = (.invalidState, exDbC3) := by
  have h := C3_no_state_check_on_vet_update exDbC3 1 2 9 .Confirmed
  exact ⟨(h.1 ⟨5, 1, "", "", ""⟩ rfl (by decide)).1,
    h.2 ⟨3, 2, "", ""⟩ ⟨9, 4, 3, 5, 0, .Completed⟩ rfl rfl (by decide)⟩

/-- Every row produced by the Veterinarian join carries the requested
`vet_id`. -/
theorem mem_vetApptRows_vet_id {db : DB} {vid : Nat} {a : Appointment}
    (h : a ∈ vetApptRows db vid) : a.vet_id = vid := by
  simp only [vetApptRows, List.mem_flatMap] at h
  obtain ⟨x, hx, hmem⟩ := h
  by_cases hv : (x.vet_id == vid) = true
  · rw [if_pos hv] at hmem
    simp only [List.mem_flatMap] at hmem
    obtain ⟨p, hp, hmem⟩ := hmem
    by_cases hpp : (p.pet_id == x.pet_id) = true
    · rw [if_pos hpp] at hmem
      simp only [List.mem_flatMap] at hmem
      obtain ⟨o, hno, hmem⟩ := hmem
      by_cases hoo : (o.owner_id == x.owner_id) = true
      · rw [if_pos hoo] at hmem
        simp only [List.mem_flatMap] at hmem
        obtain ⟨u, hu, hmem⟩ := hmem
        by_cases huu : (u.user_id == o.user_id) = true
        · rw [if_pos huu] at hmem
          simp only [List.mem_singleton] at hmem
          subst hmem
          exact beq_iff_eq.mp hv
        · rw [if_neg huu] at hmem
          simp at hmem
      · rw [if_neg hoo] at hmem
        simp at hmem
    · rw [if_neg hpp] at hmem
      simp at hmem
  · rw [if_neg hv] at hmem
    simp at hmem

/-- C4: for a caller in role Veterinarian, every row that
`view_appointments` returns has `vet_id` equal to the vet profile id
resolved from the caller's `user_id`, for any store contents; and when no
vet profile row exists for that `user_id`, the listing is exactly the
empty list rather than an error. -/
theorem C4_vet_visibility (db : DB) (uid : Nat) :
    (∀ a ∈ view_appointments db .Veterinarian uid,
      ∃ v, findVet db uid = some v ∧ a.vet_id = v.vet_id) ∧
    (findVet db uid = none → view_appointments db .Veterinarian uid = []) := by
  constructor
  · intro a ha
    cases hv : findVet db uid with
    | none =>
        rw [view_appointments, hv] at ha
        simp at ha
    | some v =>
        rw [view_appointments, hv] at ha
        exact ⟨v, rfl, mem_vetApptRows_vet_id ha⟩
  · intro h
    rw [view_appointments, h]

/-- Concrete instance of `C4_vet_visibility` on `exDbC4`: the single
joinable appointment row is returned and indeed carries the caller's own
`vet_id` 5; a caller with no vet profile (user 99) gets the empty list. -/
theorem C4_vet_visibility_witness :
    (∃ v, findVet exDbC4 1 = some v ∧
      (⟨9, 3, 7, 5, 100, .Pending⟩ : Appointment).vet_id = v.vet_id) ∧
    view_appointments exDbC4 .Veterinarian 99 = [] := by
  refine ⟨(C4_vet_visibility exDbC4 1).1 ⟨9, 3, 7, 5, 100, .Pending⟩ ?_,
    (C4_vet_visibility exDbC4 99).2 rfl⟩
  decide

/-- Propositional reading of the same-day completion condition. -/
theorem sameDayMatch_iff (petId vetId : Nat) (today : Int)
    (a : Appointment) :
    sameDayMatch petId vetId today a = true ↔
      a.pet_id = petId ∧ a.vet_id = vetId ∧
      dateOf a.appointment_date = today ∧ a.status ≠ Status.Cancelled := by
  simp [sameDayMatch, Bool.and_eq_true, beq_iff_eq, and_assoc]

/-- C2: with the store healthy, recording a vaccination (resp. a
medication) for pet P by the caller's vet profile V succeeds, appends the
medical entry, and rewrites the appointment table pointwise: every
appointment for (P, V) dated today with status ≠ `Cancelled` becomes
`Completed`, and every appointment for another pet, another vet, another
date, or already `Cancelled` is left exactly unchanged — also when zero
appointments match. -/
theorem C2_same_day_autocompletion (db : DB) (uid petId : Nat) (v : Vet)
    (hv : findVet db uid = some v) (vaccineName : String) (dateGiven : Int)
    (nextDue : Option Int) (vnotes : Option String)
    (medicineName dosage : String) (startDate : Int) (endDate : Option Int)
    (mnotes : Option String) (today : Int) :
    ((add_vaccination db uid petId vaccineName dateGiven nextDue vnotes
        today true true).1 = .success ∧
      (add_vaccination db uid petId vaccineName dateGiven nextDue vnotes
        today true true).2.vaccinations =
        db.vaccinations ++ [⟨petId, v.vet_id, vaccineName, dateGiven, nextDue, vnotes⟩] ∧
      ∃ f, (add_vaccination db uid petId vaccineName dateGiven nextDue vnotes
          today true true).2.appointments = db.appointments.map f ∧
        ∀ a : Appointment,
          (a.pet_id = petId ∧ a.vet_id = v.vet_id ∧
            dateOf a.appointment_date = today ∧ a.status ≠ Status.Cancelled →
            f a = { a with status := Status.Completed }) ∧
          (¬ (a.pet_id = petId ∧ a.vet_id = v.vet_id ∧
            dateOf a.appointment_date = today ∧ a.status ≠ Status.Cancelled) →
            f a = a)) ∧
    ((add_medication db uid petId medicineName dosage startDate endDate
        mnotes today true true).1 = .success ∧
      (add_medication db uid petId medicineName dosage startDate endDate
        mnotes today true true).2.medications =
        db.medications ++ [⟨petId, v.vet_id, medicineName, dosage, startDate, endDate, mnotes⟩] ∧
      ∃ f, (add_medication db uid petId medicineName dosage startDate endDate
          mnotes today true true).2.appointments = db.appointments.map f ∧
        ∀ a : Appointment,
          (a.pet_id = petId ∧ a.vet_id = v.vet_id ∧
            dateOf a.appointment_date = today ∧ a.status ≠ Status.Cancelled →
            f a = { a with status := Status.Completed }) ∧
          (¬ (a.pet_id = petId ∧ a.vet_id = v.vet_id ∧
            dateOf a.appointment_date = today ∧ a.status ≠ Status.Cancelled) →
            f a = a)) := by
  have hpt : ∀ a : Appointment,
      (a.pet_id = petId ∧ a.vet_id = v.vet_id ∧
        dateOf a.appointment_date = today ∧ a.status ≠ Status.Cancelled →
        (if sameDayMatch petId v.vet_id today a then
          { a with status := Status.Completed } else a) =
          { a with status := Status.Completed }) ∧
      (¬ (a.pet_id = petId ∧ a.vet_id = v.vet_id ∧
        dateOf a.appointment_date = today ∧ a.status ≠ Status.Cancelled) →
        (if sameDayMatch petId v.vet_id today a then
          { a with status := Status.Completed } else a) = a) := by
    intro a
    constructor
    · intro h
      rw [if_pos ((sameDayMatch_iff petId v.vet_id today a).mpr h)]
    · intro h
      rw [if_neg (fun hm => h ((sameDayMatch_iff petId v.vet_id today a).mp hm))]
  constructor
  · refine ⟨by simp [add_vaccination, hv], by simp [add_vaccination, hv, completeToday], ?_⟩
    refine ⟨fun a => if sameDayMatch petId v.vet_id today a then
      { a with status := Status.Completed } else a, ?_, hpt⟩
    simp [add_vaccination, hv, completeToday]
  · refine ⟨by simp [add_medication, hv], by simp [add_medication, hv, completeToday], ?_⟩
    refine ⟨fun a => if sameDayMatch petId v.vet_id today a then
      { a with status := Status.Completed } else a, ?_, hpt⟩
    simp [add_medication, hv, completeToday]

/-- Concrete instance of `C2_same_day_autocompletion` on `exDbC2`:
recording a vaccination for pet 3 completes the matching same-day
appointment 1 and leaves appointment 2 (a different pet) untouched, while
the entry lands in `vaccinations`. -/
theorem C2_same_day_autocompletion_witness :
    (add_vaccination exDbC2 1 3 "Rabies" 100 none none 0 true true).1 = .success ∧
    (add_vaccination exDbC2 1 3 "Rabies" 100 none none 0 true true).2.vaccinations =
      [⟨3, 5, "Rabies", 100, none, none⟩] ∧
    (add_vaccination exDbC2 1 3 "Rabies" 100 none none 0 true true).2.appointments.map
      Appointment.status = [.Completed, .Confirmed] := by
  have h := (C2_same_day_autocompletion exDbC2 1 3 ⟨5, 1, "", "", ""⟩ rfl
    "Rabies" 100 none none "" "" 0 none none 0).1
  obtain ⟨h1, h2, f, hf, hpt⟩ := h
  refine ⟨h1, by simpa [exDbC2] using h2, ?_⟩
  rw [hf]
  have e1 := (hpt ⟨1, 3, 7, 5, 100, .Pending⟩).1 (by decide)
  have e2 := (hpt ⟨2, 4, 7, 5, 100, .Confirmed⟩).2 (by decide)
  simp [exDbC2, e1, e2]

/-- C7: the medical-entry insert and the same-day completion update form
one transactional unit.  For every combination of store outcomes, either
the operation reports success and the visible store is exactly the
original with the entry appended and the completion applied, or the
operation reports a store error and the visible store is exactly the
original — so a failed insert never runs the side effect and a failed
side effect never leaves an orphaned entry. -/
theorem C7_record_atomicity (db : DB) (uid petId : Nat) (v : Vet)
    (hv : findVet db uid = some v) (vaccineName : String) (dateGiven : Int)
    (nextDue : Option Int) (vnotes : Option String)
    (medicineName dosage : String) (startDate : Int) (endDate : Option Int)
    (mnotes : Option String) (today : Int) (insertOk updateOk : Bool) :
    (((add_vaccination db uid petId vaccineName dateGiven nextDue vnotes
        today insertOk updateOk).1 = .success ∧
      insertOk = true ∧ updateOk = true ∧
      (add_vaccination db uid petId vaccineName dateGiven nextDue vnotes
        today insertOk updateOk).2 =
        completeToday
          { db with vaccinations := db.vaccinations ++
              [⟨petId, v.vet_id, vaccineName, dateGiven, nextDue, vnotes⟩] }
          petId v.vet_id today) ∨
    ((add_vaccination db uid petId vaccineName dateGiven nextDue vnotes
        today insertOk updateOk).1 = .storeError ∧
      (add_vaccination db uid petId vaccineName dateGiven nextDue vnotes
        today insertOk updateOk).2 = db)) ∧
    (((add_medication db uid petId medicineName dosage startDate endDate
        mnotes today insertOk updateOk).1 = .success ∧
      insertOk = true ∧ updateOk = true ∧
      (add_medication db uid petId medicineName dosage startDate endDate
        mnotes today insertOk updateOk).2 =
        completeToday
          { db with medications := db.medications ++
              [⟨petId, v.vet_id, medicineName, dosage, startDate, endDate, mnotes⟩] }
          petId v.vet_id today) ∨
    ((add_medication db uid petId medicineName dosage startDate endDate
        mnotes today insertOk updateOk).1 = .storeError ∧
      (add_medication db uid petId medicineName dosage startDate endDate
        mnotes today insertOk updateOk).2 = db)) := by
  cases insertOk <;> cases updateOk <;>
    simp [add_vaccination, add_medication, hv]

/-- Concrete instance of `C7_record_atomicity` on `exDbC7`: with the
completion update failing, the vaccination insert is rolled back and the
visible store is unchanged. -/
theorem C7_record_atomicity_witness :
    (add_vaccination exDbC7 1 3 "Rabies" 100 none none 0 true false).1 =
      .storeError ∧
    (add_vaccination exDbC7 1 3 "Rabies" 100 none none 0 true false).2 =
      exDbC7 := by
  have h := (C7_record_atomicity exDbC7 1 3 ⟨5, 1, "", "", ""⟩ rfl
    "Rabies" 100 none none "" "" 0 none none 0 true false).1
  rcases h with ⟨_, _, hfalse, _⟩ | ⟨h1, h2⟩
  · cases hfalse
  · exact ⟨h1, h2⟩

/-- C8 counterexample: soft-delete user 1 of `exDbC8`; the row now
carries `vchr_status = "D"`, yet `login` with the same credentials still
returns the user — the code's login query has no status condition, so a
soft-deleted user authenticates, contradicting the claim that
authentication must fail. -/
theorem C8_deleted_user_login_counterexample :
    (manage_delete_users exDbC8 1).users.map UserRow.vchr_status = ["D"] ∧
    login plainCheck (manage_delete_users exDbC8 1) "a@x" "pw" =
      some ⟨1, "Alice", "a@x", "pw", "Pet Owner", "D"⟩ := by
  constructor <;> rfl

/-- C8 amended: after a soft delete the user row persists (with
`vchr_status = "D"`) and is excluded from the admin user listing, but
`login` never consults `vchr_status`: any user row found by email whose
password checks is authenticated, soft-deleted or not. -/
theorem C8_soft_delete_partial (db : DB) (targetId : Nat) :
    (∀ u ∈ manage_users (manage_delete_users db targetId),
      u.vchr_status = "A") ∧
    (∀ u ∈ db.users, u.user_id = targetId →
      { u with vchr_status := "D" } ∈ (manage_delete_users db targetId).users) ∧
    (∀ (check : String → String → Bool) (db2 : DB) (email pw : String)
      (u : UserRow), findByEmail db2 email = some u →
      check u.password pw = true → login check db2 email pw = some u) := by
  refine ⟨?_, ?_, ?_⟩
  · intro u hu
    have := List.of_mem_filter hu
    simpa [beq_iff_eq] using this
  · intro u hu hid
    simp only [manage_delete_users, List.mem_map]
    exact ⟨u, hu, by simp [hid]⟩
  · intro check db2 email pw u hfind hcheck
    simp [login, hfind, hcheck]

/-- Concrete instance of `C8_soft_delete_partial` on `exDbC8`: the
deleted row survives in the table with status `"D"`, and login by email
and matching password returns it. -/
theorem C8_soft_delete_partial_witness :
    ({ user_id := 1, full_name := "Alice", email := "a@x", password := "pw"
       role := "Pet Owner", vchr_status := "D" } : UserRow) ∈
      (manage_delete_users exDbC8 1).users ∧
    login plainCheck (manage_delete_users exDbC8 1) "a@x" "pw" =
      some ⟨1, "Alice", "a@x", "pw", "Pet Owner", "D"⟩ := by
  have h := C8_soft_delete_partial exDbC8 1
  refine ⟨h.2.1 ⟨1, "Alice", "a@x", "pw", "Pet Owner", "A"⟩ (by decide) rfl, ?_⟩
  exact h.2.2 plainCheck (manage_delete_users exDbC8 1) "a@x" "pw"
    ⟨1, "Alice", "a@x", "pw", "Pet Owner", "D"⟩ (by decide) (by decide)

/-- C9: when a Pet Owner with owner profile O edits any existing pet row
by `pet_id`, the row is updated with the submitted fields and its
`owner_id` is overwritten with O's id — whatever owner the pet belonged
to before, since the `UPDATE` is keyed by `pet_id` alone; rows with other
ids are untouched. -/
theorem C9_edit_pet_reassigns_owner (db : DB) (uid petId : Nat) (o : Owner)
    (ho : findOwner db uid = some o) (name breed : String) (age : Nat)
    (gender medicalHistory : String) (imagePath : Option String) :
    (∀ p ∈ db.pets, p.pet_id = petId →
      { p with
          owner_id := some o.owner_id
          name := name
          breed := breed
          age := age
          gender := gender
          medical_history := medicalHistory
          image := imagePath.getD p.image } ∈
        (manage_edit_pet_asOwner db uid petId name breed age gender
          medicalHistory imagePath).pets) ∧
    (∀ p ∈ db.pets, p.pet_id ≠ petId →
      p ∈ (manage_edit_pet_asOwner db uid petId name breed age gender
          medicalHistory imagePath).pets) := by
  constructor
  · intro p hp hid
    simp only [manage_edit_pet_asOwner, List.mem_map]
    exact ⟨p, hp, by simp [hid, ho]⟩
  · intro p hp hid
    simp only [manage_edit_pet_asOwner, List.mem_map]
    exact ⟨p, hp, by simp [hid]⟩

/-- Concrete instance of `C9_edit_pet_reassigns_owner` on `exDbC9`: pet 3
belongs to owner 99, yet the edit by the caller owning profile 7 rewrites
the row with `owner_id = 7`. -/
theorem C9_edit_pet_reassigns_owner_witness :
    ({ pet_id := 3, owner_id := some 7, name := "Rexy", breed := "Lab"
       age := 5, gender := "M", medical_history := "", image := "old.png" } : Pet) ∈
      (manage_edit_pet_asOwner exDbC9 2 3 "Rexy" "Lab" 5 "M" "" none).pets := by
  have h := (C9_edit_pet_reassigns_owner exDbC9 2 3 ⟨7, 2, "", ""⟩ rfl
    "Rexy" "Lab" 5 "M" "" none).1
  exact h ⟨3, some 99, "Rex", "Lab", 4, "M", "", "old.png"⟩ (by decide) rfl
